import Mathlib

/-!
# Cindir PointCloud Manager — pipeline verification

Shallow embedding of the point cloud processing pipeline of
`src/Cindir/cindir_pointcloud_manager.py` (class `PointCloudProcessor`).

Modelling conventions:

* Coordinates, colors, normals and densities are rationals (the Python code
  uses floating point; no claim here depends on rounding).
* The external geometry library (Open3D / laspy / numpy readers) is a
  collaborator, not repository code.  Its numerical routines (normal
  estimation, statistical outlier selection, voxel downsampling, Poisson
  reconstruction) are passed to the pipeline functions as explicit function
  parameters, exactly where the Python code calls into the library; the
  contracts the spec assigns to them (for example, one normal per point)
  appear as hypotheses.  The parts of the library with fixed documented
  semantics that the repository's own logic depends on
  (`remove_vertices_by_mask`, `np.quantile` with linear interpolation,
  the rectangularity requirement of `np.loadtxt`) are modelled concretely.
* A Python method mutating `self` and returning a bool becomes a function
  `Processor → Bool × Processor`.
* File contents are modelled as what each collaborator reader would yield
  for the file: `laspy.read` may fail (it raises on unreadable input),
  `o3d.io.read_point_cloud` never raises (it yields an empty cloud on
  failure), and an `.xyz` file is the list of numeric rows `np.loadtxt`
  would parse (or a parse failure for non-numeric content).
-/

/-- A 3-component vector (point, color triple, or normal). -/
abbrev V3 : Type := ℚ × ℚ × ℚ

/-- Open3D `PointCloud`: points plus optional per-point colors and normals
(`pcd.points`, `pcd.colors`, `pcd.normals`). -/
structure PointCloud where
  points : List V3
  colors : Option (List V3)
  normals : Option (List V3)
deriving DecidableEq

/-- Open3D `TriangleMesh`: vertices and triangular faces (index triples). -/
structure TriangleMesh where
  vertices : List V3
  triangles : List (Nat × Nat × Nat)
deriving DecidableEq

/-- State of `PointCloudProcessor` (`__init__`, lines 26-31): the current
cloud, the reconstructed mesh, the numpy snapshot `self.normals` taken by
`estimate_normals`, and the never-assigned `self.colors` field.  The unused
`self.metadata = {}` dictionary is read nowhere and is omitted. -/
structure Processor where
  point_cloud : Option PointCloud
  mesh : Option TriangleMesh
  normals : Option (List V3)
  colors : Option (List V3)
deriving DecidableEq

/-- Fresh `PointCloudProcessor()` state: every field starts as `None`. -/
def initProcessor : Processor :=
  { point_cloud := none, mesh := none, normals := none, colors := none }

/-- The alignment invariant of a `PointCloud`: whenever colors or normals
are present, their count equals the point count. -/
def PointCloud.invB (pc : PointCloud) : Bool :=
  (match pc.colors with
   | none => true
   | some cs => cs.length == pc.points.length) &&
  (match pc.normals with
   | none => true
   | some ns => ns.length == pc.points.length)

/-- Error kinds of the loading stage (spec section 7).  The Python code
raises `ValueError("Unsupported file format: ...")` for an unrecognized
extension and lets any reader exception stand for a load failure; both are
caught by the `except` clause of `load_pointcloud`. -/
inductive LoadError where
  | unsupportedFormat
  | loadFailure
deriving DecidableEq

/-- Outcome of each collaborator reader on one particular file. -/
structure FileData where
  /-- Outcome of `laspy.read`: x/y/z coordinate rows and, when the
  red/green/blue channels exist, the 16-bit color rows; `Except.error` when
  reading raises. -/
  lasData : Except Unit (List V3 × Option (List V3))
  /-- Outcome of `o3d.io.read_point_cloud` on this file read as PLY:
  Open3D returns a cloud (empty on failure) rather than raising. -/
  plyRead : PointCloud
  /-- Outcome of `o3d.io.read_point_cloud` on this file read as PCD. -/
  pcdRead : PointCloud
  /-- The numeric rows `np.loadtxt` tokenizes from this file, or a parse
  failure (non-numeric content makes `np.loadtxt` raise). -/
  xyzRows : Except Unit (List (List ℚ))

/-- Split a character list at every occurrence of a separator. -/
def splitChar (c : Char) : List Char → List (List Char)
  | [] => [[]]
  | x :: xs =>
    let r := splitChar c xs
    if x = c then [] :: r
    else
      match r with
      | [] => [[x]]
      | y :: ys => (x :: y) :: ys

/-- Python `PurePath.name`: the last nonempty path component. -/
def pathName (path : String) : String :=
  String.mk (((splitChar '/' path.toList).filter (fun s => s ≠ [])).getLastD [])

/-- ASCII lowercasing of a string, character by character (Python
`str.lower` restricted to ASCII, which covers the compared extension
literals). -/
def lowerString (s : String) : String :=
  String.mk (s.toList.map Char.toLower)

/-- Index of the last occurrence of a character in a list, if any. -/
def lastIdxOf (c : Char) : List Char → Option Nat
  | [] => none
  | x :: xs =>
    match lastIdxOf c xs with
    | some i => some (i + 1)
    | none => if x = c then some 0 else none

/-- Python `PurePath.suffix`: the extension of the last component,
including the dot; empty when the rightmost dot is absent, leading, or
trailing. -/
def pathSuffix (path : String) : String :=
  let cs := (pathName path).toList
  match lastIdxOf '.' cs with
  | some i => if 0 < i ∧ i + 1 < cs.length then String.mk (cs.drop i) else ""
  | none => ""

/-- The recognized extension set of `load_pointcloud` (lines 37-44). -/
def recognizedExts : List String := [".las", ".laz", ".ply", ".pcd", ".xyz"]

/-- Model of `_load_las` (lines 55-66): x/y/z rows become points; when the
red/green/blue channels exist they become colors normalized from the 16-bit
range (divide by 65535). -/
def load_las : Except Unit (List V3 × Option (List V3)) → Except LoadError PointCloud
  | .error _ => .error .loadFailure
  | .ok (pts, orgb) =>
    .ok { points := pts
          colors := orgb.map (List.map (fun v => (v.1 / 65535, v.2.1 / 65535, v.2.2 / 65535)))
          normals := none }

/-- The column count of a rectangular row list; `none` when rows disagree
(`np.loadtxt` raises on ragged input). -/
def rectCols : List (List ℚ) → Option Nat
  | [] => some 0
  | r :: rs => if rs.all (fun s => s.length = r.length) then some r.length else none

/-- Model of `_load_xyz` (lines 74-82) applied to the parsed rows.
`data = np.loadtxt(path, delimiter=' ')` requires rectangular rows and
squeezes a 0- or 1-row file to a 1-dimensional array, on which the 2-d slice
`data[:, :3]` raises.  `pcd.points = Vector3dVector(data[:, :3])` needs the
slice to have exactly 3 columns, and `if data.shape[1] > 3` assigns
`pcd.colors = Vector3dVector(data[:, 3:6] / 255.0)`, which needs columns
4-6 to all exist; otherwise `Vector3dVector` raises and the load fails. -/
def load_xyz (rows : List (List ℚ)) : Except LoadError PointCloud :=
  match rectCols rows with
  | none => .error .loadFailure
  | some c =>
    if rows.length < 2 then .error .loadFailure
    else if c < 3 then .error .loadFailure
    else
      let pts := rows.map (fun r => (r.getD 0 0, r.getD 1 0, r.getD 2 0))
      if c = 3 then .ok { points := pts, colors := none, normals := none }
      else if c < 6 then .error .loadFailure
      else
        .ok { points := pts
              colors := some (rows.map (fun r =>
                (r.getD 3 0 / 255, r.getD 4 0 / 255, r.getD 5 0 / 255)))
              normals := none }

/-- The dispatch of `load_pointcloud` (lines 33-46) on the lowercased
suffix of the path, with the reader outcome of the chosen format. -/
def load_dispatch (path : String) (f : FileData) : Except LoadError PointCloud :=
  let ext := lowerString (pathSuffix path)
  if ext = ".las" ∨ ext = ".laz" then load_las f.lasData
  else if ext = ".ply" then .ok f.plyRead
  else if ext = ".pcd" then .ok f.pcdRead
  else if ext = ".xyz" then
    match f.xyzRows with
    | .error _ => .error .loadFailure
    | .ok rows => load_xyz rows
  else .error .unsupportedFormat

/-- Model of `load_pointcloud` (lines 33-53): on success `self.point_cloud` is
replaced and `True` is returned; every exception is caught, logged and
turned into `False`, with no field assigned (the assignment to
`self.point_cloud` only happens after the loader returned). -/
def load_pointcloud (p : Processor) (path : String) (f : FileData) : Bool × Processor :=
  match load_dispatch path f with
  | .ok pc => (true, { p with point_cloud := some pc })
  | .error _ => (false, p)

/-- Model of `estimate_normals` (lines 84-93): `False` with nothing touched when no
cloud is loaded; otherwise the library writes one normal per point into the
cloud (`pcd.estimate_normals`, modelled by the collaborator function `nrm`
applied to the current points) and `self.normals` snapshots that array. -/
def estimate_normals (nrm : List V3 → List V3) (p : Processor) : Bool × Processor :=
  match p.point_cloud with
  | none => (false, p)
  | some pc =>
    let ns := nrm pc.points
    (true, { p with point_cloud := some { pc with normals := some ns }, normals := some ns })

/-- Model of `remove_outliers` (lines 95-104): `False` with nothing touched when no
cloud is loaded; otherwise `self.point_cloud` is replaced by the cloud the
library's `remove_statistical_outlier` returns (the collaborator function
`rso`).  No other field is assigned. -/
def remove_outliers (rso : PointCloud → PointCloud) (p : Processor) : Bool × Processor :=
  match p.point_cloud with
  | none => (false, p)
  | some pc => (true, { p with point_cloud := some (rso pc) })

/-- Model of `downsample` (lines 106-113): `False` with nothing touched when no
cloud is loaded; otherwise `self.point_cloud` is replaced by the cloud the
library's `voxel_down_sample` returns (the collaborator function `vds`). -/
def downsample (vds : PointCloud → PointCloud) (p : Processor) : Bool × Processor :=
  match p.point_cloud with
  | none => (false, p)
  | some pc => (true, { p with point_cloud := some (vds pc) })

/-- The library's `select_by_index` semantics (spec section 4.2): keep the
points at the given indices, in order, and keep the associated color and
normal entries for exactly the retained points. -/
def selectByIndex (pc : PointCloud) (keep : List Nat) : PointCloud :=
  { points := keep.filterMap (fun i => pc.points[i]?)
    colors := pc.colors.map (fun cs => keep.filterMap (fun i => cs[i]?))
    normals := pc.normals.map (fun ns => keep.filterMap (fun i => ns[i]?)) }

/-- Insert into a sorted list of rationals. -/
def insertSorted (x : ℚ) : List ℚ → List ℚ
  | [] => [x]
  | y :: ys => if x ≤ y then x :: y :: ys else y :: insertSorted x ys

/-- Insertion sort of rationals, ascending. -/
def sortQ : List ℚ → List ℚ
  | [] => []
  | x :: xs => insertSorted x (sortQ xs)

/-- Model of `np.quantile(xs, q)` with the default linear interpolation method:
on the ascending sort `a` of `xs`, with `h = q * (len - 1)`, the value
`a[floor h] + (h - floor h) * (a[floor h + 1] - a[floor h])`.
Total with value 0 on the empty list (where numpy raises). -/
def quantile (xs : List ℚ) (q : ℚ) : ℚ :=
  let s := sortQ xs
  if s.isEmpty then 0
  else
    let h : ℚ := q * ((s.length : ℚ) - 1)
    let l : Nat := (h.num.fdiv (h.den : ℤ)).toNat
    let g : ℚ := h - (l : ℚ)
    let a := s.getD l 0
    let b := s.getD (l + 1) a
    a + g * (b - a)

/-- Position of a number in a list, if present. -/
def posIn (i : Nat) : List Nat → Option Nat
  | [] => none
  | j :: js => if i = j then some 0 else (posIn i js).map (fun k => k + 1)

/-- The vertex indices surviving a removal mask: the positions below `n`
whose mask entry is not true. -/
def keptIndices (n : Nat) (mask : List Bool) : List Nat :=
  (List.range n).filter (fun i => !(mask.getD i false))

/-- Reindex one triangle against the list of surviving vertex indices;
`none` when any corner was removed. -/
def reindexTri (keep : List Nat) (t : Nat × Nat × Nat) : Option (Nat × Nat × Nat) :=
  match posIn t.1 keep, posIn t.2.1 keep, posIn t.2.2 keep with
  | some a, some b, some c => some (a, b, c)
  | _, _, _ => none

/-- The library's `remove_vertices_by_mask` semantics: drop every vertex
whose mask entry is true, drop every triangle that references a dropped
vertex, and reindex the surviving triangles against the surviving
vertex list. -/
def removeVerticesByMask (m : TriangleMesh) (mask : List Bool) : TriangleMesh :=
  let keep := keptIndices m.vertices.length mask
  { vertices := keep.map (fun i => m.vertices.getD i ((0 : ℚ), (0 : ℚ), (0 : ℚ)))
    triangles := m.triangles.filterMap (reindexTri keep) }

/-- Model of `create_mesh` (lines 115-127): `False` with nothing touched unless both
`self.point_cloud` and the `self.normals` snapshot are present.  Otherwise
Poisson reconstruction (the collaborator function `poisson`, returning the
raw mesh and the per-vertex densities) runs on the current cloud, the mask
`densities < np.quantile(densities, 0.1)` is formed, and the mesh pruned by
that mask becomes `self.mesh`. -/
def create_mesh (poisson : PointCloud → TriangleMesh × List ℚ) (p : Processor) :
    Bool × Processor :=
  match p.point_cloud, p.normals with
  | some pc, some _ =>
    let md := poisson pc
    let thresh := quantile md.2 (1 / 10)
    let mask := md.2.map (fun d => decide (d < thresh))
    (true, { p with mesh := some (removeVerticesByMask md.1 mask) })
  | _, _ => (false, p)

/-- The metadata record `save_results` writes (lines 147-153): a JSON
object with exactly these five keys. -/
structure Metadata where
  processing_date : String
  original_points : Nat
  final_points : Nat
  mesh_vertices : Nat
  mesh_faces : Nat
deriving DecidableEq

/-- What one call of `save_results` (lines 129-159) writes to the output
directory: the two optional PLY files and the always-written metadata
file. -/
structure SaveOutput where
  cloudFile : Option String
  meshFile : Option String
  metadataFile : String
  metadata : Metadata
deriving DecidableEq

/-- Model of `save_results` (lines 129-159) with the formatted timestamp as the
shared token.  The point cloud and mesh files are written exactly when the
corresponding field is set (Open3D geometry objects have no truthiness
override, so `if self.point_cloud:` tests against `None`).  The metadata
dictionary always has the five keys; `original_points` is
`getattr(self, 'original_point_count', 0)` and the attribute
`original_point_count` is assigned nowhere in the class, so the `getattr`
default 0 is always taken. -/
def save_results (p : Processor) (timestamp : String) : SaveOutput :=
  { cloudFile :=
      match p.point_cloud with
      | some _ => some ("processed_cloud_" ++ timestamp ++ ".ply")
      | none => none
    meshFile :=
      match p.mesh with
      | some _ => some ("mesh_" ++ timestamp ++ ".ply")
      | none => none
    metadataFile := "metadata_" ++ timestamp ++ ".json"
    metadata :=
      { processing_date := timestamp
        original_points := 0
        final_points :=
          match p.point_cloud with
          | some pc => pc.points.length
          | none => 0
        mesh_vertices :=
          match p.mesh with
          | some m => m.vertices.length
          | none => 0
        mesh_faces :=
          match p.mesh with
          | some m => m.triangles.length
          | none => 0 } }


/-- The mesh `create_mesh` stores on success: the Poisson output pruned by
the mask of densities strictly below their 10th percentile. -/
def prunedPoissonMesh (poisson : PointCloud → TriangleMesh × List ℚ)
    (pc : PointCloud) : TriangleMesh :=
  removeVerticesByMask (poisson pc).1
    ((poisson pc).2.map (fun d => decide (d < quantile (poisson pc).2 (1 / 10))))

/-- A cloud with no points and no attributes (what the Open3D readers yield
on failure). -/
def emptyCloud : PointCloud := { points := [], colors := none, normals := none }

/-- A file on which every format-specific reader fails or yields nothing. -/
def unreadableFile : FileData :=
  { lasData := .error (), plyRead := emptyCloud, pcdRead := emptyCloud, xyzRows := .error () }

/-- A plain-text XYZ file with the given numeric rows. -/
def xyzFile (rows : List (List ℚ)) : FileData :=
  { lasData := .error (), plyRead := emptyCloud, pcdRead := emptyCloud, xyzRows := .ok rows }

/-- Two rows of three fields: a well-formed colorless XYZ file. -/
def xyzRows3 : List (List ℚ) := [[0, 0, 0], [1, 1, 1]]

/-- Two rows of four fields: x/y/z plus one extra field per line. -/
def xyzRows4 : List (List ℚ) := [[0, 0, 0, 10], [1, 1, 1, 20]]

/-- Two rows of six fields: x/y/z plus 8-bit RGB per line. -/
def xyzRows6 : List (List ℚ) := [[0, 0, 0, 255, 0, 0], [1, 1, 1, 0, 255, 0]]

/-- Collaborator stand-in for normal estimation on a planar cloud: one unit
normal (0, 0, 1) per point (spec section 8: points on the z = 0 plane yield
normals of (0, 0, ±1)). -/
def nrmPlanar (pts : List V3) : List V3 := pts.map (fun _ => ((0 : ℚ), (0 : ℚ), (1 : ℚ)))

/-- Collaborator stand-in for `remove_statistical_outlier` on a cloud whose
last point is a far outlier: the library keeps every point but the last
(spec section 8: one far outlier and a small enough `std_ratio` remove
exactly that point). -/
def rsoDropLast (pc : PointCloud) : PointCloud :=
  selectByIndex pc (List.range (pc.points.length - 1))

/-- A collinear cloud on the x-axis whose last point is a far outlier. -/
def pcLine : PointCloud :=
  { points := [(0, 0, 0), (1, 0, 0), (100, 0, 0)], colors := none, normals := none }

/-- Collaborator stand-in for Poisson reconstruction: a fixed two-face mesh
whose first vertex has the low density 1 while the rest have density 5. -/
def poisFixed (_ : PointCloud) : TriangleMesh × List ℚ :=
  ({ vertices := [(0, 0, 0), (1, 0, 0), (0, 1, 0), (0, 0, 1)]
     triangles := [(0, 1, 2), (1, 2, 3)] },
   [1, 5, 5, 5])

/-- A processor holding a normals snapshot and a mesh from an earlier run,
but no cloud. -/
def staleProcessor : Processor :=
  { point_cloud := none
    mesh := some { vertices := [(0, 0, 0)], triangles := [] }
    normals := some [(0, 0, 1)]
    colors := none }

/-- A processor ready for meshing: the collinear cloud with an estimated
snapshot of one normal per point. -/
def meshProcessor : Processor :=
  { point_cloud := some pcLine
    mesh := none
    normals := some [(0, 0, 1), (0, 0, 1), (0, 0, 1)]
    colors := none }

/-- A position returned by `posIn` is an index into the searched list. -/
theorem posIn_lt_length (i : Nat) (l : List Nat) (a : Nat) (h : posIn i l = some a) :
    a < l.length := by
  induction l generalizing a with
  | nil => simp [posIn] at h
  | cons j js ih =>
    rw [posIn] at h
    by_cases hij : i = j
    · rw [if_pos hij] at h
      cases h
      simp
    · rw [if_neg hij] at h
      cases hm : posIn i js with
      | none => rw [hm] at h; simp at h
      | some b =>
        rw [hm] at h
        simp only [Option.map_some'] at h
        cases h
        have := ih b hm
        simp only [List.length_cons]
        omega

/-- Every triangle surviving reindexing points into the kept-vertex list. -/
theorem reindexTri_bound (keep : List Nat) (t u : Nat × Nat × Nat)
    (h : reindexTri keep t = some u) :
    u.1 < keep.length ∧ u.2.1 < keep.length ∧ u.2.2 < keep.length := by
  unfold reindexTri at h
  cases h1 : posIn t.1 keep with
  | none => rw [h1] at h; simp at h
  | some a =>
    cases h2 : posIn t.2.1 keep with
    | none => rw [h1, h2] at h; simp at h
    | some b =>
      cases h3 : posIn t.2.2 keep with
      | none => rw [h1, h2, h3] at h; simp at h
      | some c =>
        rw [h1, h2, h3] at h
        cases h
        exact ⟨posIn_lt_length _ _ _ h1, posIn_lt_length _ _ _ h2, posIn_lt_length _ _ _ h3⟩

/-- Pruning never increases the vertex count. -/
theorem removeVerticesByMask_length_le (m : TriangleMesh) (mask : List Bool) :
    (removeVerticesByMask m mask).vertices.length ≤ m.vertices.length := by
  unfold removeVerticesByMask keptIndices
  simp only [List.length_map]
  calc ((List.range m.vertices.length).filter _).length
      ≤ (List.range m.vertices.length).length := List.length_filter_le _ _
    _ = m.vertices.length := List.length_range _

/-- Every face of a pruned mesh indexes into the pruned vertex list. -/
theorem removeVerticesByMask_faces_bound (m : TriangleMesh) (mask : List Bool) :
    ∀ t ∈ (removeVerticesByMask m mask).triangles,
      t.1 < (removeVerticesByMask m mask).vertices.length ∧
      t.2.1 < (removeVerticesByMask m mask).vertices.length ∧
      t.2.2 < (removeVerticesByMask m mask).vertices.length := by
  intro t ht
  unfold removeVerticesByMask at ht ⊢
  simp only [List.length_map]
  rw [List.mem_filterMap] at ht
  obtain ⟨s, _, hf⟩ := ht
  exact reindexTri_bound _ s t hf

/-- Selecting entries of a list by an index list keeps exactly the in-range
indices, so the selected length only depends on the list's length. -/
theorem length_filterMap_get (l : List V3) (keep : List Nat) :
    (keep.filterMap (fun i => l[i]?)).length =
      (keep.filter (fun i => decide (i < l.length))).length := by
  induction keep with
  | nil => rfl
  | cons i ks ih =>
    by_cases h : i < l.length
    · have hx : l[i]? = some l[i] := List.getElem?_eq_getElem h
      simp [List.filterMap_cons, hx, List.filter_cons, h, ih]
    · have hx : l[i]? = none := by
        rw [List.getElem?_eq_none]
        omega
      simp [List.filterMap_cons, hx, List.filter_cons, h, ih]

/-- The library's select-by-index keeps colors and normals aligned with the
points: it preserves the alignment invariant. -/
theorem selectByIndex_invB (pc : PointCloud) (keep : List Nat)
    (h : pc.invB = true) : (selectByIndex pc keep).invB = true := by
  unfold PointCloud.invB selectByIndex at *
  cases hc : pc.colors <;> cases hn : pc.normals <;>
    rw [hc, hn] at h <;> simp only [Option.map_none', Option.map_some'] <;>
    simp only [Bool.and_eq_true, beq_iff_eq] at h ⊢ <;>
    simp [length_filterMap_get, h.1, h.2]

/-- C5: a load can only succeed when the lowercased path suffix is one of
`.las`, `.laz`, `.ply`, `.pcd`, `.xyz`, and for every path whose lowercased
suffix is not in that set the dispatch fails with the unsupported-format
error kind. -/
theorem load_requires_recognized_extension (p : Processor) (path : String) (f : FileData) :
    ((load_pointcloud p path f).1 = true → lowerString (pathSuffix path) ∈ recognizedExts) ∧
    (lowerString (pathSuffix path) ∉ recognizedExts →
      load_dispatch path f = .error .unsupportedFormat) := by
  have hdisp : lowerString (pathSuffix path) ∉ recognizedExts →
      load_dispatch path f = .error .unsupportedFormat := by
    intro hn
    simp only [recognizedExts, List.mem_cons, List.not_mem_nil, or_false, not_or] at hn
    obtain ⟨h1, h2, h3, h4, h5⟩ := hn
    simp [load_dispatch, h1, h2, h3, h4, h5]
  refine ⟨?_, hdisp⟩
  intro h
  by_contra hn
  have hd := hdisp hn
  unfold load_pointcloud at h
  rw [hd] at h
  simp at h

/-- Witness for C5 at a concrete unsupported path: `scan.txt` has the
suffix `.txt`, which is outside the recognized set, and the dispatch
reports the unsupported-format error. -/
theorem load_requires_recognized_extension_witness :
    load_dispatch "scan.txt" unreadableFile = .error .unsupportedFormat :=
  (load_requires_recognized_extension initProcessor "scan.txt" unreadableFile).2
    (by decide)

/-- C4: whenever a stage reports failure, the processor state is returned
exactly as it was: no failure path of any stage assigns a field. -/
theorem failed_stage_leaves_state_unchanged (p : Processor) (path : String) (f : FileData)
    (nrm : List V3 → List V3) (rso vds : PointCloud → PointCloud)
    (poisson : PointCloud → TriangleMesh × List ℚ) :
    ((load_pointcloud p path f).1 = false → (load_pointcloud p path f).2 = p) ∧
    ((estimate_normals nrm p).1 = false → (estimate_normals nrm p).2 = p) ∧
    ((remove_outliers rso p).1 = false → (remove_outliers rso p).2 = p) ∧
    ((downsample vds p).1 = false → (downsample vds p).2 = p) ∧
    ((create_mesh poisson p).1 = false → (create_mesh poisson p).2 = p) := by
  refine ⟨?_, ?_, ?_, ?_, ?_⟩
  · unfold load_pointcloud
    cases load_dispatch path f <;> simp
  · unfold estimate_normals
    cases p.point_cloud <;> simp
  · unfold remove_outliers
    cases p.point_cloud <;> simp
  · unfold downsample
    cases p.point_cloud <;> simp
  · unfold create_mesh
    cases p.point_cloud <;> cases p.normals <;> simp

/-- Witness for C4 at concrete failing runs: an unsupported extension and
an empty processor make all five stages fail with the state unchanged. -/
theorem failed_stage_leaves_state_unchanged_witness :
    (load_pointcloud initProcessor "scan.txt" unreadableFile).2 = initProcessor ∧
    (estimate_normals nrmPlanar initProcessor).2 = initProcessor ∧
    (remove_outliers rsoDropLast initProcessor).2 = initProcessor ∧
    (downsample id initProcessor).2 = initProcessor ∧
    (create_mesh poisFixed initProcessor).2 = initProcessor := by
  have h := failed_stage_leaves_state_unchanged initProcessor "scan.txt" unreadableFile
    nrmPlanar rsoDropLast id poisFixed
  exact ⟨h.1 (by decide), h.2.1 (by decide), h.2.2.1 (by decide),
    h.2.2.2.1 (by decide), h.2.2.2.2 (by decide)⟩

/-- C6: mesh reconstruction fails exactly when the cloud or the normals
snapshot is missing — the missing-prerequisite condition; in particular it
fails whenever normals were never estimated. -/
theorem create_mesh_requires_cloud_and_normals
    (poisson : PointCloud → TriangleMesh × List ℚ) (p : Processor) :
    (create_mesh poisson p).1 = false ↔ (p.point_cloud = none ∨ p.normals = none) := by
  unfold create_mesh
  cases p.point_cloud <;> cases p.normals <;> simp

/-- Witness for C6: a fresh processor, on which normals were never
estimated, fails the meshing prerequisite check. -/
theorem create_mesh_requires_cloud_and_normals_witness :
    (create_mesh poisFixed initProcessor).1 = false :=
  (create_mesh_requires_cloud_and_normals poisFixed initProcessor).mpr (Or.inl rfl)

/-- C7: with no cloud loaded, normal estimation, outlier removal and
downsampling each return the failure flag and leave the whole state
unchanged. -/
theorem stages_noop_without_cloud (nrm : List V3 → List V3)
    (rso vds : PointCloud → PointCloud) (p : Processor)
    (h : p.point_cloud = none) :
    estimate_normals nrm p = (false, p) ∧ remove_outliers rso p = (false, p) ∧
    downsample vds p = (false, p) := by
  unfold estimate_normals remove_outliers downsample
  rw [h]
  exact ⟨rfl, rfl, rfl⟩

/-- Witness for C7: the three stages on the fresh processor. -/
theorem stages_noop_without_cloud_witness :
    estimate_normals nrmPlanar initProcessor = (false, initProcessor) ∧
    remove_outliers rsoDropLast initProcessor = (false, initProcessor) ∧
    downsample id initProcessor = (false, initProcessor) :=
  stages_noop_without_cloud nrmPlanar rsoDropLast id initProcessor rfl

/-- C9: persisting always produces the metadata record with the five fixed
keys; `original_points` defaults to 0, `final_points` is 0 without a cloud,
the mesh counts are 0 without a mesh, and with neither artifact the record
is the timestamp together with four zero counts. -/
theorem save_results_metadata_defaults (p : Processor) (ts : String) :
    (save_results p ts).metadataFile = "metadata_" ++ ts ++ ".json" ∧
    (save_results p ts).metadata.processing_date = ts ∧
    (save_results p ts).metadata.original_points = 0 ∧
    (p.point_cloud = none → (save_results p ts).metadata.final_points = 0) ∧
    (p.mesh = none → (save_results p ts).metadata.mesh_vertices = 0 ∧
      (save_results p ts).metadata.mesh_faces = 0) ∧
    (p.point_cloud = none → p.mesh = none →
      (save_results p ts).metadata =
        { processing_date := ts, original_points := 0, final_points := 0,
          mesh_vertices := 0, mesh_faces := 0 }) := by
  refine ⟨rfl, rfl, rfl, ?_, ?_, ?_⟩
  · intro h
    simp [save_results, h]
  · intro h
    simp [save_results, h]
  · intro h1 h2
    simp [save_results, h1, h2]

/-- Witness for C9: persisting the fresh processor (no cloud, no mesh)
yields the all-zero metadata record. -/
theorem save_results_metadata_defaults_witness :
    (save_results initProcessor "20240101_000000").metadata =
      { processing_date := "20240101_000000", original_points := 0, final_points := 0,
        mesh_vertices := 0, mesh_faces := 0 } :=
  (save_results_metadata_defaults initProcessor "20240101_000000").2.2.2.2.2 rfl rfl

/-- C10: a successful load assigns only the point cloud field, so the
normals snapshot and the mesh of an earlier run survive, and a surviving
snapshot lets the meshing prerequisite check pass right after a new cloud
was loaded — with normals that were estimated for a different cloud. -/
theorem load_keeps_stale_normals_and_mesh (p : Processor) (path : String)
    (f : FileData) (poisson : PointCloud → TriangleMesh × List ℚ)
    (h : (load_pointcloud p path f).1 = true) :
    (load_pointcloud p path f).2.normals = p.normals ∧
    (load_pointcloud p path f).2.mesh = p.mesh ∧
    (p.normals.isSome = true →
      (create_mesh poisson (load_pointcloud p path f).2).1 = true) := by
  unfold load_pointcloud at h ⊢
  cases hd : load_dispatch path f with
  | error e => rw [hd] at h; simp at h
  | ok pc =>
    refine ⟨rfl, rfl, ?_⟩
    intro hs
    obtain ⟨ns, hns⟩ := Option.isSome_iff_exists.mp hs
    simp [create_mesh, hns]

/-- Witness for C10: the processor holding a stale one-entry snapshot and a
stale mesh loads a fresh two-point cloud; the snapshot and mesh survive and
meshing passes its prerequisite check. -/
theorem load_keeps_stale_normals_and_mesh_witness :
    (load_pointcloud staleProcessor "cloud.xyz" (xyzFile xyzRows3)).2.normals =
      staleProcessor.normals ∧
    (load_pointcloud staleProcessor "cloud.xyz" (xyzFile xyzRows3)).2.mesh =
      staleProcessor.mesh ∧
    (create_mesh poisFixed
      (load_pointcloud staleProcessor "cloud.xyz" (xyzFile xyzRows3)).2).1 = true := by
  have h := load_keeps_stale_normals_and_mesh staleProcessor "cloud.xyz"
    (xyzFile xyzRows3) poisFixed (by with_unfolding_all decide)
  exact ⟨h.1, h.2.1, h.2.2 rfl⟩

/-- C1 (code bug): after a successful load of a two-point cloud, the
persisted `original_points` is 0, not 2 — `save_results` reads
`original_point_count` through a `getattr` default and no code ever assigns
that attribute. -/
theorem original_points_always_zero :
    (load_pointcloud initProcessor "cloud.xyz" (xyzFile xyzRows3)).1 = true ∧
    ((load_pointcloud initProcessor "cloud.xyz" (xyzFile xyzRows3)).2.point_cloud.map
      (fun pc => pc.points.length)) = some 2 ∧
    (save_results (load_pointcloud initProcessor "cloud.xyz" (xyzFile xyzRows3)).2
      "20240101_000000").metadata.original_points = 0 := by
  with_unfolding_all decide

/-- C2 counterexample: the claim says a well-formed XYZ file whose lines
have four fields yields a point cloud without colors, but on such a file
the loader takes the `data.shape[1] > 3` color branch, the 1-column slice
`data[:, 3:6]` is rejected by `Vector3dVector`, and the load fails. -/
theorem xyz_four_fields_fails_to_load :
    load_dispatch "scan.xyz" (xyzFile xyzRows4) = .error .loadFailure ∧
    (load_pointcloud initProcessor "scan.xyz" (xyzFile xyzRows4)).1 = false :=
  ⟨by with_unfolding_all rfl, by with_unfolding_all decide⟩

/-- C2 (amended): for a rectangular XYZ file with at least two data rows,
the first three fields of each line become that point's x/y/z; a 3-field
file loads without colors; a file with at least six fields loads with
colors taken from fields 4-6 divided by 255; a 4- or 5-field file fails to
load (its color slice lacks three columns); and every successful load has
colors exactly when the file has at least six fields. -/
theorem xyz_column_semantics (rows : List (List ℚ)) (c : Nat)
    (hrect : rectCols rows = some c) (hrows : 2 ≤ rows.length) :
    (c = 3 → load_xyz rows = .ok
      { points := rows.map (fun r => (r.getD 0 0, r.getD 1 0, r.getD 2 0))
        colors := none, normals := none }) ∧
    (6 ≤ c → load_xyz rows = .ok
      { points := rows.map (fun r => (r.getD 0 0, r.getD 1 0, r.getD 2 0))
        colors := some (rows.map (fun r =>
          (r.getD 3 0 / 255, r.getD 4 0 / 255, r.getD 5 0 / 255)))
        normals := none }) ∧
    (c = 4 ∨ c = 5 → load_xyz rows = .error .loadFailure) ∧
    (∀ pc, load_xyz rows = .ok pc →
      (c = 3 ∧ pc.colors = none) ∨ (6 ≤ c ∧ pc.colors.isSome = true)) := by
  have hr : ¬ rows.length < 2 := by omega
  have hA : c = 3 → load_xyz rows = .ok
      { points := rows.map (fun r => (r.getD 0 0, r.getD 1 0, r.getD 2 0))
        colors := none, normals := none } := by
    intro h3
    subst h3
    unfold load_xyz
    rw [hrect]
    simp [hr]
  have hB : 6 ≤ c → load_xyz rows = .ok
      { points := rows.map (fun r => (r.getD 0 0, r.getD 1 0, r.getD 2 0))
        colors := some (rows.map (fun r =>
          (r.getD 3 0 / 255, r.getD 4 0 / 255, r.getD 5 0 / 255)))
        normals := none } := by
    intro h6
    have h1 : ¬ c < 3 := by omega
    have h2 : c ≠ 3 := by omega
    have h3 : ¬ c < 6 := by omega
    unfold load_xyz
    rw [hrect]
    simp [hr, h1, h2, h3]
  have hC : c = 4 ∨ c = 5 → load_xyz rows = .error .loadFailure := by
    rintro (h | h) <;> subst h <;> unfold load_xyz <;> rw [hrect] <;> simp [hr]
  refine ⟨hA, hB, hC, ?_⟩
  intro pc hpc
  by_cases h3 : c = 3
  · left
    refine ⟨h3, ?_⟩
    rw [hA h3] at hpc
    injection hpc with h
    rw [← h]
  · by_cases h6 : 6 ≤ c
    · right
      refine ⟨h6, ?_⟩
      rw [hB h6] at hpc
      injection hpc with h
      rw [← h]
      rfl
    · exfalso
      by_cases h1 : c < 3
      · have hE : load_xyz rows = .error .loadFailure := by
          unfold load_xyz
          rw [hrect]
          simp [hr, h1]
        rw [hE] at hpc
        exact Except.noConfusion hpc
      · have : c = 4 ∨ c = 5 := by omega
        rw [hC this] at hpc
        exact Except.noConfusion hpc

/-- Witness for C2 (amended) at two concrete files: the six-field file
loads with the normalized colors, and the four-field file fails. -/
theorem xyz_column_semantics_witness :
    load_xyz xyzRows6 = .ok
      { points := xyzRows6.map (fun r => (r.getD 0 0, r.getD 1 0, r.getD 2 0))
        colors := some (xyzRows6.map (fun r =>
          (r.getD 3 0 / 255, r.getD 4 0 / 255, r.getD 5 0 / 255)))
        normals := none } ∧
    load_xyz xyzRows4 = .error .loadFailure := by
  refine ⟨(xyz_column_semantics xyzRows6 6 (by decide) (by decide)).2.1 (by omega), ?_⟩
  exact (xyz_column_semantics xyzRows4 4 (by decide) (by decide)).2.2.1 (Or.inl rfl)

/-- C3 counterexample: on the collinear cloud, estimate normals (a 3-entry
snapshot) and then let the outlier filter drop the far outlier; the run
succeeds, the processor's stored normals keep 3 entries while the current
cloud has 2 points, so the stored normals no longer correspond one-to-one
with the current points — the claim fails on this input. -/
theorem normals_snapshot_goes_stale :
    (remove_outliers rsoDropLast
      (estimate_normals nrmPlanar
        { initProcessor with point_cloud := some pcLine }).2).1 = true ∧
    ((remove_outliers rsoDropLast
      (estimate_normals nrmPlanar
        { initProcessor with point_cloud := some pcLine }).2).2.normals.map
      List.length) = some 3 ∧
    ((remove_outliers rsoDropLast
      (estimate_normals nrmPlanar
        { initProcessor with point_cloud := some pcLine }).2).2.point_cloud.map
      (fun pc => pc.points.length)) = some 2 ∧
    ((remove_outliers rsoDropLast
      (estimate_normals nrmPlanar
        { initProcessor with point_cloud := some pcLine }).2).2.normals.map
      List.length) ≠
    ((remove_outliers rsoDropLast
      (estimate_normals nrmPlanar
        { initProcessor with point_cloud := some pcLine }).2).2.point_cloud.map
      (fun pc => pc.points.length)) := by
  with_unfolding_all decide

/-- C3 (amended): normal estimation stores one normal per current point —
in the cloud and in the snapshot — and the library's select-by-index keeps
the cloud's own colors and normals aligned with its points; but outlier
removal and downsampling leave the processor's separately stored normals
snapshot (and mesh) untouched while replacing the point set, so the
snapshot need not correspond to the current points afterwards. -/
theorem stage_attribute_alignment (p : Processor) (pc : PointCloud)
    (nrm : List V3 → List V3) (rso vds : PointCloud → PointCloud)
    (hn : ∀ pts, (nrm pts).length = pts.length)
    (hp : p.point_cloud = some pc) :
    ((estimate_normals nrm p).2.point_cloud =
        some { pc with normals := some (nrm pc.points) } ∧
      (estimate_normals nrm p).2.normals = some (nrm pc.points) ∧
      (nrm pc.points).length = pc.points.length) ∧
    ((remove_outliers rso p).2.point_cloud = some (rso pc) ∧
      (remove_outliers rso p).2.normals = p.normals ∧
      (remove_outliers rso p).2.mesh = p.mesh) ∧
    ((downsample vds p).2.point_cloud = some (vds pc) ∧
      (downsample vds p).2.normals = p.normals ∧
      (downsample vds p).2.mesh = p.mesh) ∧
    (∀ keep, pc.invB = true → (selectByIndex pc keep).invB = true) := by
  unfold estimate_normals remove_outliers downsample
  rw [hp]
  exact ⟨⟨rfl, rfl, hn pc.points⟩, ⟨rfl, rfl, rfl⟩, ⟨rfl, rfl, rfl⟩,
    fun keep h => selectByIndex_invB pc keep h⟩

/-- Witness for C3 (amended) on the collinear cloud with the planar
estimator, the outlier-dropping filter and the identity downsampler. -/
theorem stage_attribute_alignment_witness :
    (estimate_normals nrmPlanar { initProcessor with point_cloud := some pcLine }).2.normals =
      some (nrmPlanar pcLine.points) ∧
    (remove_outliers rsoDropLast { initProcessor with point_cloud := some pcLine }).2.normals =
      ({ initProcessor with point_cloud := some pcLine } : Processor).normals ∧
    (downsample id { initProcessor with point_cloud := some pcLine }).2.mesh =
      ({ initProcessor with point_cloud := some pcLine } : Processor).mesh ∧
    (selectByIndex pcLine [0, 1]).invB = true := by
  have h := stage_attribute_alignment { initProcessor with point_cloud := some pcLine }
    pcLine nrmPlanar rsoDropLast id (fun pts => by simp [nrmPlanar]) rfl
  exact ⟨h.1.2.1, h.2.1.2.1, h.2.2.1.2.2, h.2.2.2 [0, 1] (by decide)⟩

/-- C8: on a successful reconstruction, the stored mesh is exactly the
Poisson output pruned by the strict below-10th-percentile density mask; the
pruned vertex count never exceeds the raw count, every face of the pruned
mesh indexes into the pruned vertex list, and the surviving vertices are
exactly, in order, the raw vertices whose density is not below the
threshold. -/
theorem create_mesh_pruning (poisson : PointCloud → TriangleMesh × List ℚ)
    (p : Processor) (pc : PointCloud)
    (hp : p.point_cloud = some pc) (hns : p.normals.isSome = true)
    (hd : (poisson pc).2.length = (poisson pc).1.vertices.length) :
    (create_mesh poisson p).1 = true ∧
    (create_mesh poisson p).2.mesh = some (prunedPoissonMesh poisson pc) ∧
    (prunedPoissonMesh poisson pc).vertices.length ≤ (poisson pc).1.vertices.length ∧
    (∀ t ∈ (prunedPoissonMesh poisson pc).triangles,
      t.1 < (prunedPoissonMesh poisson pc).vertices.length ∧
      t.2.1 < (prunedPoissonMesh poisson pc).vertices.length ∧
      t.2.2 < (prunedPoissonMesh poisson pc).vertices.length) ∧
    (prunedPoissonMesh poisson pc).vertices =
      ((List.range (poisson pc).1.vertices.length).filter (fun i =>
        ! decide ((poisson pc).2.getD i 0 < quantile (poisson pc).2 (1 / 10)))).map
      (fun i => (poisson pc).1.vertices.getD i ((0 : ℚ), (0 : ℚ), (0 : ℚ))) := by
  obtain ⟨ns, hnse⟩ := Option.isSome_iff_exists.mp hns
  refine ⟨?_, ?_, removeVerticesByMask_length_le _ _,
    removeVerticesByMask_faces_bound _ _, ?_⟩
  · simp [create_mesh, hp, hnse]
  · simp [create_mesh, hp, hnse, prunedPoissonMesh]
  · rw [show (prunedPoissonMesh poisson pc).vertices =
        (keptIndices (poisson pc).1.vertices.length
          ((poisson pc).2.map (fun d =>
            decide (d < quantile (poisson pc).2 (1 / 10))))).map
          (fun i => (poisson pc).1.vertices.getD i ((0 : ℚ), (0 : ℚ), (0 : ℚ))) from rfl]
    unfold keptIndices
    congr 1
    apply List.filter_congr
    intro i hi
    rw [List.mem_range] at hi
    have hi2 : i < (poisson pc).2.length := by omega
    congr 1
    rw [List.getD_eq_getElem?_getD, List.getElem?_map, List.getElem?_eq_getElem hi2]
    rw [List.getD_eq_getElem?_getD, List.getElem?_eq_getElem hi2]
    rfl

/-- Witness for C8: meshing the prepared processor with the fixed Poisson
stand-in prunes the single low-density vertex, leaving 3 of 4 vertices. -/
theorem create_mesh_pruning_witness :
    (create_mesh poisFixed meshProcessor).2.mesh =
      some (prunedPoissonMesh poisFixed pcLine) ∧
    (prunedPoissonMesh poisFixed pcLine).vertices.length ≤
      (poisFixed pcLine).1.vertices.length ∧
    (prunedPoissonMesh poisFixed pcLine).vertices =
      ((List.range (poisFixed pcLine).1.vertices.length).filter (fun i =>
        ! decide ((poisFixed pcLine).2.getD i 0 < quantile (poisFixed pcLine).2 (1 / 10)))).map
      (fun i => (poisFixed pcLine).1.vertices.getD i ((0 : ℚ), (0 : ℚ), (0 : ℚ))) := by
  have h := create_mesh_pruning poisFixed meshProcessor pcLine rfl rfl (by decide)
  exact ⟨h.2.1, h.2.2.1, h.2.2.2.2⟩
